import Mathlib

/-!
Verification of the heartbeat supervisor, context-manager scopes, command-uid
allocation, active-document context handling and project-path access of the
Adobe engine (engine.py).  Each definition is a shallow embedding of the
Python source it is named after; theorems settle the frozen claims.
-/

namespace AdobeEngine

/-! ### Heartbeat supervisor (engine.py, class constant line 37 and
method _check_connection, lines 702-723)

The state carries the class attributes touched by the RPC portion of
_check_connection, plus two observation counters: how many times
QCoreApplication.instance().quit() was invoked and how many times
adobe.process_new_messages() was invoked.  The one-time post-launch context
check further down in _check_connection (lines 725-762) touches neither the
failure counter, nor quit, nor message processing, and is modelled
separately with the document-change handler. -/

def SHOTGUN_ADOBE_HEARTBEAT_TOLERANCE : Nat := 2

structure HeartbeatState where
  FAILED_PINGS : Nat
  HEARTBEAT_DISABLED : Bool
  quitCalls : Nat
  processNewMessagesCalls : Nat
deriving Repr, DecidableEq

/-- One timer tick of _check_connection (lines 702-723).  The argument
pingSucceeds is true when adobe.ping() returns and false when it raises.
The Python reads: if the disabled flag is set, return; on a failed ping,
quit once the failure counter has already reached the tolerance, otherwise
increment the counter; on a successful ping, reset the counter to 0 and
process queued messages. -/
def checkConnection (pingSucceeds : Bool) (s : HeartbeatState) : HeartbeatState :=
  if s.HEARTBEAT_DISABLED then
    s
  else if pingSucceeds then
    { s with FAILED_PINGS := 0,
             processNewMessagesCalls := s.processNewMessagesCalls + 1 }
  else if SHOTGUN_ADOBE_HEARTBEAT_TOLERANCE ≤ s.FAILED_PINGS then
    { s with quitCalls := s.quitCalls + 1 }
  else
    { s with FAILED_PINGS := s.FAILED_PINGS + 1 }

/-- A freshly armed heartbeat: failure counter 0, probing enabled, no quit
signal issued and no messages processed yet. -/
def freshArmed : HeartbeatState :=
  { FAILED_PINGS := 0, HEARTBEAT_DISABLED := false,
    quitCalls := 0, processNewMessagesCalls := 0 }

/-- Runs n consecutive ticks on each of which the probe fails. -/
def failTicks : Nat → HeartbeatState → HeartbeatState
  | 0, s => s
  | n + 1, s => failTicks n (checkConnection false s)

/-- Claim C1, as stated, is false: after exactly tolerance (2) consecutive
failed probes from the fresh armed state, no termination signal has been
issued at all (the quit counter is 0, not 1); the counter merely reached 2. -/
theorem C1_counterexample :
    (failTicks SHOTGUN_ADOBE_HEARTBEAT_TOLERANCE freshArmed).quitCalls = 0 ∧
    ¬ (failTicks SHOTGUN_ADOBE_HEARTBEAT_TOLERANCE freshArmed).quitCalls = 1 := by
  decide

/-- Claim C1 (amended): starting from a freshly armed heartbeat, no
termination signal is issued during the first tolerance (2) consecutive
failed probes; the signal is issued, exactly once, on the
(tolerance + 1)-th consecutive failed probe. -/
theorem C1_amended_quit_on_third_failure (n : Nat)
    (h : n ≤ SHOTGUN_ADOBE_HEARTBEAT_TOLERANCE) :
    (failTicks n freshArmed).quitCalls = 0 ∧
    (failTicks (SHOTGUN_ADOBE_HEARTBEAT_TOLERANCE + 1) freshArmed).quitCalls = 1 := by
  have h2 : n ≤ 2 := h
  interval_cases n <;> exact ⟨by decide, by decide⟩

/-- Witness for C1 (amended) at n = 2. -/
theorem C1_amended_quit_on_third_failure_witness :
    (failTicks 2 freshArmed).quitCalls = 0 ∧
    (failTicks (SHOTGUN_ADOBE_HEARTBEAT_TOLERANCE + 1) freshArmed).quitCalls = 1 :=
  C1_amended_quit_on_third_failure 2 (by decide)

/-- Claim C3: for every n below the tolerance, after n consecutive failed
probes from the fresh armed state no termination signal has been issued and
the failure counter equals exactly n. -/
theorem C3_below_tolerance_armed (n : Nat)
    (h : n < SHOTGUN_ADOBE_HEARTBEAT_TOLERANCE) :
    (failTicks n freshArmed).quitCalls = 0 ∧
    (failTicks n freshArmed).FAILED_PINGS = n := by
  have h2 : n < 2 := h
  interval_cases n <;> exact ⟨by decide, by decide⟩

/-- Witness for C3 at n = 1. -/
theorem C3_below_tolerance_armed_witness :
    (failTicks 1 freshArmed).quitCalls = 0 ∧
    (failTicks 1 freshArmed).FAILED_PINGS = 1 :=
  C3_below_tolerance_armed 1 (by decide)

/-- Claim C4: whenever the heartbeat is not disabled and the probe succeeds,
the failure counter is reset to exactly 0, whatever its previous value. -/
theorem C4_success_resets_counter (s : HeartbeatState)
    (h : s.HEARTBEAT_DISABLED = false) :
    (checkConnection true s).FAILED_PINGS = 0 := by
  simp [checkConnection, h]

/-- Witness for C4 at a state with failure counter 5. -/
theorem C4_success_resets_counter_witness :
    (checkConnection true
      { FAILED_PINGS := 5, HEARTBEAT_DISABLED := false,
        quitCalls := 0, processNewMessagesCalls := 0 }).FAILED_PINGS = 0 :=
  C4_success_resets_counter _ rfl

/-- Claim C5: on a tick with the heartbeat enabled, a successful probe
drains the queued inbound messages (adobe.process_new_messages() is invoked
exactly once on that tick), while a failed probe does not invoke it. -/
theorem C5_messages_drained_on_success (s : HeartbeatState)
    (h : s.HEARTBEAT_DISABLED = false) :
    (checkConnection true s).processNewMessagesCalls
      = s.processNewMessagesCalls + 1 ∧
    (checkConnection false s).processNewMessagesCalls
      = s.processNewMessagesCalls := by
  refine ⟨by simp [checkConnection, h], ?_⟩
  simp only [checkConnection, h, Bool.false_eq_true, if_false]
  split <;> rfl

/-- Witness for C5 at the fresh armed state. -/
theorem C5_messages_drained_on_success_witness :
    (checkConnection true freshArmed).processNewMessagesCalls
      = freshArmed.processNewMessagesCalls + 1 ∧
    (checkConnection false freshArmed).processNewMessagesCalls
      = freshArmed.processNewMessagesCalls :=
  C5_messages_drained_on_success freshArmed rfl

/-! ### Scoped context managers (engine.py, heartbeat_disabled lines
1037-1055 and context_changes_disabled lines 1025-1035)

Both are Python contextmanager generators.  A generator-based scope runs
its pre-yield code on entry; on a normal body exit the generator is resumed
and the post-yield code runs; when the body raises, the exception is thrown
into the generator at the yield point, so the post-yield code runs on that
path only when the yield sits inside a try/finally whose finally clause is
the post-yield code.  The embedding records the pre-yield effect, the
post-yield effect, and whether the source wraps the yield in a try/finally. -/

structure GeneratorScope (σ : Type) where
  preYield : σ → σ
  postYield : σ → σ
  yieldGuardedByFinally : Bool

structure ScopeRun (σ : Type) where
  finalState : σ
  exceptionPropagated : Bool
deriving Repr, DecidableEq

/-- Executes a with-statement over a generator scope.  The body is
abstracted to whether it raises; its own state effects are irrelevant to
the claims and omitted. -/
def runWithScope {σ : Type} (g : GeneratorScope σ) (bodyRaises : Bool)
    (s : σ) : ScopeRun σ :=
  let entered := g.preYield s
  if bodyRaises then
    if g.yieldGuardedByFinally then
      { finalState := g.postYield entered, exceptionPropagated := true }
    else
      { finalState := entered, exceptionPropagated := true }
  else
    { finalState := g.postYield entered, exceptionPropagated := false }

/-- The heartbeat_disabled generator (lines 1037-1055).  Its state is the
HEARTBEAT_DISABLED flag.  Before the yield it sets the flag to True (inside
a try/except that only guards the setting itself); after the yield it sets
the flag back to False.  In the source the yield is NOT wrapped in a
try/finally, so the reset line is skipped when the body raises. -/
def heartbeat_disabled : GeneratorScope Bool :=
  { preYield := fun _ => true
    postYield := fun _ => false
    yieldGuardedByFinally := false }

/-- Claim C2, as stated, is false: starting with the flag cleared (Armed),
entering the heartbeat_disabled scope and having the wrapped operation
raise leaves the flag still set on exit — the re-enable after the yield is
skipped on the exception path, so the Armed state is not restored. -/
theorem C2_counterexample :
    (runWithScope heartbeat_disabled true false).finalState = true ∧
    ¬ (runWithScope heartbeat_disabled true false).finalState = false := by
  decide

/-- Claim C2 (amended): entering the heartbeat_disabled scope sets the
heartbeat-disabled flag, and leaving the scope on a normal exit clears it
again; but when the wrapped operation raises, the exception propagates with
the flag still set — the disabled state is not restored on that path. -/
theorem C2_amended_reset_only_on_normal_exit (s : Bool) :
    heartbeat_disabled.preYield s = true ∧
    (runWithScope heartbeat_disabled false s).finalState = false ∧
    (runWithScope heartbeat_disabled true s).finalState = true ∧
    (runWithScope heartbeat_disabled true s).exceptionPropagated = true := by
  cases s <;> decide

/-! ### Command uid allocation (engine.py, __get_command_uid lines
1437-1443 and register_command lines 289-300)

The lock around the counter serialises the increment; under that mutual
exclusion each call is atomic, so the allocation is the sequential
function below: increment the class counter, return its new value. -/

structure CommandCounterState where
  COMMAND_UID_COUNTER : Nat
deriving Repr, DecidableEq

/-- The method __get_command_uid: increments the counter and returns the
incremented value, together with the updated state. -/
def getCommandUid (s : CommandCounterState) : Nat × CommandCounterState :=
  (s.COMMAND_UID_COUNTER + 1, { COMMAND_UID_COUNTER := s.COMMAND_UID_COUNTER + 1 })

/-- A registered command: register_command stores the allocated uid in the
properties of the command under the uid key. -/
structure RegisteredCommand where
  name : String
  uid : Nat
deriving Repr, DecidableEq

/-- The method register_command, restricted to the uid bookkeeping it
performs: the command is given the next uid from __get_command_uid. -/
def register_command (name : String) (s : CommandCounterState) :
    RegisteredCommand × CommandCounterState :=
  let u := getCommandUid s
  ({ name := name, uid := u.1 }, u.2)

/-- Registers a list of commands in order, threading the counter state. -/
def registerAll : List String → CommandCounterState → List RegisteredCommand
  | [], _ => []
  | n :: ns, s =>
      let r := register_command n s
      r.1 :: registerAll ns r.2

/-- The sequence of uids produced by n successive calls of
__get_command_uid from a given counter state. -/
def uidList : Nat → CommandCounterState → List Nat
  | 0, _ => []
  | n + 1, s => (getCommandUid s).1 :: uidList n (getCommandUid s).2

theorem uidList_eq_range (n c : Nat) :
    uidList n { COMMAND_UID_COUNTER := c }
      = (List.range n).map (fun i => c + i + 1) := by
  induction n generalizing c with
  | zero => rfl
  | succ n ih =>
      rw [List.range_succ_eq_map, List.map_cons, List.map_map]
      show (c + 1) :: uidList n { COMMAND_UID_COUNTER := c + 1 } = _
      rw [ih]
      congr 1
      apply List.map_congr_left
      intro i _
      simp only [Function.comp_apply]
      omega

theorem registerAll_uids (names : List String) (s : CommandCounterState) :
    (registerAll names s).map RegisteredCommand.uid = uidList names.length s := by
  induction names generalizing s with
  | nil => rfl
  | cons n ns ih => simp [registerAll, uidList, register_command, ih]

/-- Claim C6: the uids allocated by __get_command_uid are strictly
increasing across successive calls, and the uids carried by a batch of
commands registered through register_command are pairwise distinct. -/
theorem C6_uids_strictly_increasing (names : List String)
    (s : CommandCounterState) :
    (uidList names.length s).Pairwise (· < ·) ∧
    ((registerAll names s).map RegisteredCommand.uid).Nodup := by
  obtain ⟨c⟩ := s
  have hp : (uidList names.length { COMMAND_UID_COUNTER := c }).Pairwise (· < ·) := by
    rw [uidList_eq_range]
    refine List.Pairwise.map _ ?_ (List.pairwise_lt_range _)
    intro a b hab
    omega
  refine ⟨hp, ?_⟩
  rw [registerAll_uids]
  exact hp.imp Nat.ne_of_lt

/-! ### Active-document context handling (engine.py,
_handle_active_document_change lines 800-886, context cache helpers lines
1728-1763, post_app_init lines 201-229)

Pipeline contexts are compared with structural equality, matching the
value-style equality of the sgtk Context class on the fields this code
touches.  The fallible collaborator tank.context_from_path is a parameter
returning Except: an error value stands for the exception it may raise;
that exception is the one caught by the try/except inside the handler.
Raising that escapes the handler would surface as an error value of the
handler itself, so the Except result type of the handler records whether
any exception propagates to the caller. -/

structure Entity where
  etype : String
  id : Nat
deriving Repr, DecidableEq

structure PContext where
  project : Option Entity
  entity : Option Entity
  task : Option Entity
deriving Repr, DecidableEq

structure DocChangeEnv where
  automatic_context_switch : Bool
  context_from_path : String → PContext → Except Unit PContext
  context_from_entity : String → Nat → PContext

structure DocChangeState where
  CONTEXT_CHANGES_DISABLED : Bool
  HEARTBEAT_DISABLED : Bool
  CONTEXT_CACHE : List (String × PContext)
  storedContextCache : List (String × PContext)
  context : PContext
  PROJECT_CONTEXT : Option PContext
  context_find_uid : Option Nat
  context_thumb_uid : Option Nat
  contextAboutToChangeCalls : Nat
deriving Repr, DecidableEq

/-- The method __get_from_context_cache (lines 1757-1763): a plain
dictionary lookup, modelled on an association list. -/
def lookupCache (cache : List (String × PContext)) (path : String) :
    Option PContext :=
  (cache.find? (fun kv => kv.1 == path)).map (fun kv => kv.2)

/-- The method __add_to_context_cache (lines 1728-1755): when the path is
not yet cached, the pair is added to the in-memory cache and the whole
cache is serialised and stored as the persisted user setting. -/
def addToContextCache (path : String) (ctx : PContext)
    (s : DocChangeState) : DocChangeState :=
  if (lookupCache s.CONTEXT_CACHE path).isSome then s
  else
    let newCache := s.CONTEXT_CACHE ++ [(path, ctx)]
    { s with CONTEXT_CACHE := newCache, storedContextCache := newCache }

/-- A project-only context, as built by sgtk.Context with only the tk
handle and the project of the current context (lines 862-865). -/
def projectOnlyContext (c : PContext) : PContext :=
  { project := c.project, entity := none, task := none }

/-- The except-branch of the handler (lines 850-867): clears the two
context request uids, then builds (and memoises in _PROJECT_CONTEXT) the
project-only fallback context. -/
def resolveFallback (s : DocChangeState) : PContext × DocChangeState :=
  let s1 := { s with context_find_uid := none, context_thumb_uid := none }
  match s1.PROJECT_CONTEXT with
  | some pc => (pc, s1)
  | none =>
      let pc := projectOnlyContext s1.context
      (pc, { s1 with PROJECT_CONTEXT := some pc })

/-- The final comparison of the handler (lines 881-886): when the candidate
context differs from the current one, notify the panel, change context and
return True; otherwise return False.  A context object is always truthy in
Python, so only the inequality matters. -/
def changeDecision (ctx : PContext) (s : DocChangeState) :
    Option Bool × DocChangeState :=
  if ctx ≠ s.context then
    (some true, { s with context := ctx,
                         contextAboutToChangeCalls := s.contextAboutToChangeCalls + 1 })
  else
    (some false, s)

/-- Lines 869-886: a candidate context with no project is rejected when the
current context has none either; otherwise it is replaced by a context
derived from the current project entity before the change decision. -/
def applyContextDecision (env : DocChangeEnv) (ctx : PContext)
    (s : DocChangeState) : Option Bool × DocChangeState :=
  match ctx.project, s.context.project with
  | none, none => (some false, s)
  | none, some p => changeDecision (env.context_from_entity p.etype p.id) s
  | some _, _ => changeDecision ctx s

/-- The body of the with heartbeat_disabled() block (lines 829-886): the
early return when context changes are disabled, the cache lookup, and on a
miss the guarded call to tank.context_from_path whose failure is caught and
replaced by the project-only fallback. -/
def docChangeBody (env : DocChangeEnv) (s : DocChangeState) (path : String) :
    Option Bool × DocChangeState :=
  if s.CONTEXT_CHANGES_DISABLED then (some false, s)
  else
    match lookupCache s.CONTEXT_CACHE path with
    | some cached => applyContextDecision env cached s
    | none =>
        match env.context_from_path path s.context with
        | .ok ctx => applyContextDecision env ctx (addToContextCache path ctx s)
        | .error _ =>
            let fb := resolveFallback s
            applyContextDecision env fb.1 fb.2

/-- The method _handle_active_document_change (lines 800-886).  The first
guard (line 811) returns None when the automatic_context_switch setting is
off.  Otherwise the whole body runs inside the heartbeat_disabled scope,
which sets the flag on entry and clears it on the normal exit taken here
(no operation in the body re-raises: the only fallible call is wrapped in
try/except).  The Option Bool return value distinguishes the bare
return (None) from return False and return True. -/
def handle_active_document_change (env : DocChangeEnv) (s : DocChangeState)
    (path : String) : Except Unit (Option Bool × DocChangeState) :=
  if env.automatic_context_switch = false then
    .ok (none, s)
  else
    let s1 := { s with HEARTBEAT_DISABLED := true }
    let r := docChangeBody env s1 path
    .ok (r.1, { r.2 with HEARTBEAT_DISABLED := false })

/-- Extracts the returned value of the handler when no exception
propagated out of it. -/
def returnValue {α β : Type} (r : Except Unit (α × β)) : Option α :=
  match r with
  | .ok v => some v.1
  | .error _ => none

/-- Claim C7: when the path misses the cache and tank.context_from_path
raises, the handler recovers locally: the run completes without any
exception reaching the caller (the result is an ok value), and the change
decision is applied to the project-only fallback context built from the
current context, which is also memoised in _PROJECT_CONTEXT. -/
theorem C7_resolution_failure_recovered (env : DocChangeEnv)
    (s : DocChangeState) (path : String)
    (hauto : env.automatic_context_switch = true)
    (hflag : s.CONTEXT_CHANGES_DISABLED = false)
    (hmiss : lookupCache s.CONTEXT_CACHE path = none)
    (hfail : env.context_from_path path s.context = .error ())
    (hproj : s.PROJECT_CONTEXT = none) :
    handle_active_document_change env s path =
      .ok (let s1 : DocChangeState :=
             { s with HEARTBEAT_DISABLED := true,
                      context_find_uid := none,
                      context_thumb_uid := none,
                      PROJECT_CONTEXT := some (projectOnlyContext s.context) }
           let r := applyContextDecision env (projectOnlyContext s.context) s1
           (r.1, { r.2 with HEARTBEAT_DISABLED := false })) := by
  simp only [handle_active_document_change, hauto, Bool.true_eq_false,
    if_false, docChangeBody, hflag, if_false, resolveFallback]
  simp [hmiss, hfail, hproj]

/-- A concrete engine context: a project with a shot selected. -/
def shotContext : PContext :=
  { project := some { etype := "Project", id := 42 }
    entity := some { etype := "Shot", id := 7 }
    task := none }

/-- A concrete environment whose path resolution always fails and whose
automatic context switching is enabled. -/
def envSwitchOn : DocChangeEnv :=
  { automatic_context_switch := true
    context_from_path := fun _ _ => .error ()
    context_from_entity := fun t i =>
      { project := some { etype := t, id := i }, entity := none, task := none } }

/-- The same environment with automatic context switching turned off. -/
def envSwitchOff : DocChangeEnv :=
  { envSwitchOn with automatic_context_switch := false }

/-- A concrete state with empty caches and no memoised project context. -/
def freshDocState : DocChangeState :=
  { CONTEXT_CHANGES_DISABLED := false
    HEARTBEAT_DISABLED := false
    CONTEXT_CACHE := []
    storedContextCache := []
    context := shotContext
    PROJECT_CONTEXT := none
    context_find_uid := some 1
    context_thumb_uid := some 2
    contextAboutToChangeCalls := 0 }

/-- The same concrete state with context changes disabled. -/
def docStateChangesDisabled : DocChangeState :=
  { freshDocState with CONTEXT_CHANGES_DISABLED := true }

/-- Witness for C7 at a concrete environment and state on which every
hypothesis holds by computation. -/
theorem C7_resolution_failure_recovered_witness :
    handle_active_document_change envSwitchOn freshDocState "scene.aep" =
      .ok (let s1 : DocChangeState :=
             { freshDocState with
               HEARTBEAT_DISABLED := true,
               context_find_uid := none,
               context_thumb_uid := none,
               PROJECT_CONTEXT := some (projectOnlyContext freshDocState.context) }
           let r := applyContextDecision envSwitchOn
                      (projectOnlyContext freshDocState.context) s1
           (r.1, { r.2 with HEARTBEAT_DISABLED := false })) :=
  C7_resolution_failure_recovered envSwitchOn freshDocState "scene.aep"
    rfl rfl rfl rfl rfl

/-- Claim C9, as stated, is false: at a concrete engine whose
automatic_context_switch setting is off, running the handler with the
context-changes-disabled flag set returns None (the bare early return of
line 815), not False. -/
theorem C9_counterexample :
    returnValue
        (handle_active_document_change envSwitchOff docStateChangesDisabled
          "doc.aep") = some none ∧
    returnValue
        (handle_active_document_change envSwitchOff docStateChangesDisabled
          "doc.aep") ≠ some (some false) := by
  constructor
  · rfl
  · decide

/-- Claim C9 (amended): with the context-changes-disabled flag set, the
handler performs no context change and leaves the current context, the
in-memory cache, the persisted cache and every other field unchanged
(apart from the transient heartbeat flag, which ends cleared); it returns
False when the automatic_context_switch setting is on, and None from the
earlier guard when that setting is off. -/
theorem C9_amended_no_change_when_disabled (env : DocChangeEnv)
    (s : DocChangeState) (path : String)
    (hflag : s.CONTEXT_CHANGES_DISABLED = true) :
    (env.automatic_context_switch = true →
      handle_active_document_change env s path =
        .ok (some false, { s with HEARTBEAT_DISABLED := false })) ∧
    (env.automatic_context_switch = false →
      handle_active_document_change env s path = .ok (none, s)) := by
  constructor
  · intro hauto
    simp [handle_active_document_change, docChangeBody, hauto, hflag]
  · intro hauto
    simp [handle_active_document_change, hauto]

/-- Witness for C9 (amended) at a concrete environment with automatic
context switching on and a concrete state with the flag set. -/
theorem C9_amended_no_change_when_disabled_witness :
    handle_active_document_change envSwitchOn docStateChangesDisabled
        "doc.aep" =
      .ok (some false,
           { docStateChangesDisabled with HEARTBEAT_DISABLED := false }) :=
  (C9_amended_no_change_when_disabled envSwitchOn docStateChangesDisabled
      "doc.aep" rfl).1 rfl

/-- The effect of post_app_init (lines 201-229) on the persisted
path-to-context cache stored under the aftereffects_context_cache user
setting.  The code comments reason about how many documents are open, but
the store call is unconditional: whatever was stored before, and whatever
the open document count is, the setting is overwritten with an empty
dictionary. -/
def post_app_init_stored_cache (openDocumentCount : Nat)
    (previousStored : List (String × PContext)) : List (String × PContext) :=
  []

/-- Claim C8: whenever fewer than two documents are open at
post-app-initialization time, the persisted path-to-context cache is
cleared to an empty mapping (the code in fact clears it for any document
count, which implies the claimed case). -/
theorem C8_cache_cleared (openDocumentCount : Nat)
    (previousStored : List (String × PContext))
    (h : openDocumentCount < 2) :
    post_app_init_stored_cache openDocumentCount previousStored = [] := rfl

/-- Witness for C8 with one open document and a nonempty previous cache. -/
theorem C8_cache_cleared_witness :
    post_app_init_stored_cache 1 [("scene.aep", shotContext)] = [] :=
  C8_cache_cleared 1 [("scene.aep", shotContext)] (by decide)

/-! ### Project path access (engine.py, project_path property lines
331-345)

The remote file attribute of the project is always delivered as a
ProxyWrapper, possibly wrapping the remote null; comparing it with the
native None through the explicit inequality operator asks the proxy, and
reading fsName on a proxy wrapping null has no value (it would fail on the
remote side), which the access function records as none. -/

inductive ProxyWrapper where
  | nullProxy : ProxyWrapper
  | fileProxy (fsName : String) : ProxyWrapper
deriving Repr, DecidableEq

/-- The explicit inequality comparison of a proxy against None (the source
comments that an identity comparison with None would not work, lines
341-343). -/
def proxyNeNone : ProxyWrapper → Bool
  | .nullProxy => false
  | .fileProxy _ => true

/-- Reading the fsName attribute through the proxy: defined only on a
proxy that wraps an actual file object. -/
def fsNameAccess : ProxyWrapper → Option String
  | .nullProxy => none
  | .fileProxy s => some s

/-- The project_path property (lines 331-345): doc_path starts as the
empty string and is replaced by fsName only under the inequality guard. -/
def project_path (doc_obj : ProxyWrapper) : Option String :=
  if proxyNeNone doc_obj then fsNameAccess doc_obj else some ""

/-- Claim C10: project_path returns the fsName of the project file when
the proxy compares unequal to None, returns the empty string when it
compares equal to None, and never performs an fsName access on a null
proxy (the result is never the undefined access value). -/
theorem C10_project_path (p : ProxyWrapper) (s : String) :
    project_path (ProxyWrapper.fileProxy s) = some s ∧
    project_path ProxyWrapper.nullProxy = some "" ∧
    project_path p ≠ none := by
  refine ⟨rfl, rfl, ?_⟩
  cases p <;> simp [project_path, proxyNeNone, fsNameAccess]

end AdobeEngine
